import Mathlib

/-!
Verification of the event-notification core of the dashboard application
(src/app.py): the recurrence expander `Event.get_recurring_instances`
and the notification scheduler `check_and_send_event_notifications`.

Time model: the Python code works with naive `datetime` values holding a
civil (proleptic Gregorian) date and a time of day.  `DateTime` below is
that civil representation.  Python compares naive datetimes
lexicographically on their fields; adding a `timedelta` moves the
underlying instant and re-renders it as a civil value, which `addDays`
and `addSecs` reproduce.  `timedelta.total_seconds` of a difference of
two datetimes equals the difference of their epoch-second encodings,
which `toSecs` computes via the standard days-from-civil algorithm.

The timezone database (`ZoneInfo America/New_York`) is an external
collaborator: it is modelled as a function `TzOffset` giving, for a UTC
instant, the UTC offset in seconds that `astimezone` applies at that
instant.  Concrete witnesses instantiate it with the constant EDT offset
of -4 hours, the correct value for the June 2025 instants they use.
-/

/-- A civil date-and-time, mirroring a naive Python `datetime`
(microseconds are not used by the code under verification). -/
structure DateTime where
  year : Nat
  month : Nat
  day : Nat
  hour : Nat
  minute : Nat
  second : Nat
deriving DecidableEq, Repr

/-- Python compares naive datetimes field-lexicographically. -/
def DateTime.ltB (a b : DateTime) : Bool :=
  if a.year ≠ b.year then decide (a.year < b.year)
  else if a.month ≠ b.month then decide (a.month < b.month)
  else if a.day ≠ b.day then decide (a.day < b.day)
  else if a.hour ≠ b.hour then decide (a.hour < b.hour)
  else if a.minute ≠ b.minute then decide (a.minute < b.minute)
  else decide (a.second < b.second)

/-- Python `<=` on naive datetimes: less-than or equal. -/
def DateTime.leB (a b : DateTime) : Bool :=
  DateTime.ltB a b || a == b

/-- Gregorian leap-year rule, as used by `calendar.monthrange`. -/
def isLeap (y : Nat) : Bool :=
  (y % 4 == 0 && y % 100 != 0) || (y % 400 == 0)

/-- Number of days in a month (`calendar.monthrange(y, m)[1]`). -/
def monthLength (y m : Nat) : Nat :=
  if m == 2 then (if isLeap y then 29 else 28)
  else if m == 4 || m == 6 || m == 9 || m == 11 then 30
  else 31

/-- Days since 1970-01-01 of a civil date (standard days-from-civil
algorithm over the proleptic Gregorian calendar, the calendar of
Python `datetime`). -/
def daysFromCivil (y m d : Nat) : Int :=
  let yAdj : Int := (y : Int) - (if m ≤ 2 then 1 else 0)
  let era : Int := Int.fdiv yAdj 400
  let yoe : Int := yAdj - era * 400
  let mp : Int := ((m : Int) + 9) % 12
  let doy : Int := (153 * mp + 2) / 5 + (d : Int) - 1
  let doe : Int := yoe * 365 + yoe / 4 - yoe / 100 + doy
  era * 146097 + doe - 719468

/-- Seconds since the epoch of a civil datetime; differences of these
are what `timedelta.total_seconds` reports for datetime subtraction. -/
def DateTime.toSecs (d : DateTime) : Int :=
  daysFromCivil d.year d.month d.day * 86400
    + (d.hour : Int) * 3600 + (d.minute : Int) * 60 + (d.second : Int)

/-- The following civil day (rolling month and year as needed). -/
def DateTime.nextDay (d : DateTime) : DateTime :=
  if d.day < monthLength d.year d.month then { d with day := d.day + 1 }
  else if d.month < 12 then { d with month := d.month + 1, day := 1 }
  else { d with year := d.year + 1, month := 1, day := 1 }

/-- The preceding civil day. -/
def DateTime.prevDay (d : DateTime) : DateTime :=
  if 1 < d.day then { d with day := d.day - 1 }
  else if 1 < d.month then
    { d with month := d.month - 1, day := monthLength d.year (d.month - 1) }
  else { d with year := d.year - 1, month := 12, day := 31 }

/-- Adding `n` civil days: Python `datetime + timedelta(days=n)`. -/
def DateTime.addDays (d : DateTime) (n : Nat) : DateTime :=
  Nat.iterate DateTime.nextDay n d

/-- Shifting a civil datetime by `delta` seconds (used for
`timedelta(hours=...)` arithmetic and for `astimezone` offsets). -/
def DateTime.addSecs (d : DateTime) (delta : Int) : DateTime :=
  let sod : Int := (d.hour : Int) * 3600 + (d.minute : Int) * 60 + (d.second : Int) + delta
  let dayShift : Int := Int.fdiv sod 86400
  let rem : Int := Int.emod sod 86400
  let dt := { d with hour := (rem / 3600).toNat,
                     minute := ((rem % 3600) / 60).toNat,
                     second := (rem % 60).toNat }
  if 0 ≤ dayShift then Nat.iterate DateTime.nextDay dayShift.toNat dt
  else Nat.iterate DateTime.prevDay (-dayShift).toNat dt

/-- Python `.date()` equality: same civil calendar date. -/
def DateTime.sameDate (a b : DateTime) : Bool :=
  a.year == b.year && a.month == b.month && a.day == b.day

/-- Zero-padded two-digit rendering (strftime field padding). -/
def pad2 (n : Nat) : String :=
  if n < 10 then "0" ++ toString n else toString n

/-- Zero-padded four-digit rendering of a year (strftime `%Y`). -/
def pad4 (n : Nat) : String :=
  if n < 10 then "000" ++ toString n
  else if n < 100 then "00" ++ toString n
  else if n < 1000 then "0" ++ toString n
  else toString n

/-- `strftime(\x27%Y%m%d\x27)`: the date key used in instance ids. -/
def DateTime.fmtYYYYMMDD (d : DateTime) : String :=
  pad4 d.year ++ pad2 d.month ++ pad2 d.day

/-- `strftime(\x27%I:%M %p\x27)`: zero-padded 12-hour clock with AM/PM. -/
def DateTime.fmtHour12 (d : DateTime) : String :=
  let h12 := if d.hour % 12 == 0 then 12 else d.hour % 12
  pad2 h12 ++ ":" ++ pad2 d.minute ++ " " ++ (if d.hour < 12 then "AM" else "PM")

/-- The `Event` row (src/app.py, class Event).  Nullable string columns
are modelled as `String` with the empty string for NULL, matching
Python truthiness tests on them; nullable datetime columns as
`Option DateTime`.  Payload columns no claim observes (description,
coordinates, icon, timestamps) are carried implicitly by keeping the
whole event inside each emitted instance. -/
structure Event where
  id : Nat
  title : String
  location : String
  start_date : DateTime
  end_date : Option DateTime
  is_recurring : Bool
  recurrence_rule : String
  recurrence_end_date : Option DateTime
  is_active : Bool
  is_popup : Bool
  notify : Bool
  notified_morning : Bool
  notified_hour_before : Bool
deriving DecidableEq, Repr

/-- One element of the list returned by `get_recurring_instances`: the
`to_dict` payload of the event, with `start_date` and `end_date`
overridden for this occurrence and, on the recurring path only, an
added `instance_id` key (`none` models the absence of that key). -/
structure EventInstance where
  event : Event
  start_date : DateTime
  end_date : Option DateTime
  instance_id : Option String
deriving DecidableEq, Repr

/-- The plain `to_dict` result viewed as an instance: stored dates,
no `instance_id` key. -/
def Event.passThrough (e : Event) : EventInstance :=
  { event := e, start_date := e.start_date, end_date := e.end_date,
    instance_id := none }

/-- `event_duration` (line 427): `end_date - start_date` in seconds, or
4 hours when there is no stored `end_date`. -/
def Event.eventDuration (e : Event) : Int :=
  match e.end_date with
  | some en => en.toSecs - e.start_date.toSecs
  | none => 4 * 3600

/-- The instance dict built at lines 455-458: `to_dict` with
`start_date` set to the occurrence, `end_date` set to
`current_start + event_duration` only when the event has a stored
`end_date` (else None), and the synthetic `instance_id`. -/
def Event.mkInstance (e : Event) (cur : DateTime) : EventInstance :=
  { event := e,
    start_date := cur,
    end_date := if e.end_date.isSome then some (cur.addSecs e.eventDuration) else none,
    instance_id := some (toString e.id ++ "_" ++ cur.fmtYYYYMMDD) }

/-- One-calendar-month advance with day clamping (lines 462-475):
increment the month with year rollover; `datetime.replace` succeeds
when the day exists in the target month, otherwise the day is clamped
with `min(day, monthrange)`. -/
def monthlyNext (cur : DateTime) : DateTime :=
  let m0 := cur.month + 1
  let y := if 12 < m0 then cur.year + 1 else cur.year
  let m := if 12 < m0 then 1 else m0
  if cur.day ≤ monthLength y m then { cur with year := y, month := m }
  else { cur with year := y, month := m, day := min cur.day (monthLength y m) }

/-- The per-iteration advance of the generation loop (lines 461-477):
monthly uses the clamped month step, otherwise the `timedelta` delta
chosen at lines 430-433 (one or two weeks). -/
def Event.nextOccurrence (e : Event) (cur : DateTime) : DateTime :=
  if e.recurrence_rule == "monthly" then monthlyNext cur
  else if e.recurrence_rule == "biweekly" then cur.addDays 14
  else cur.addDays 7

/-- The generation loop (lines 442-477) with `fuel` iterations left:
break when the occurrence exceeds `recurrence_end_date` (if set),
break when it exceeds `to_date`, emit when it is at or after
`from_date`, then advance. -/
def recurLoop (e : Event) (from_date to_date : DateTime) :
    Nat → DateTime → List EventInstance
  | 0, _ => []
  | fuel + 1, cur =>
    if (match e.recurrence_end_date with
        | some red => red.ltB cur
        | none => false) then []
    else if to_date.ltB cur then []
    else
      let rest := recurLoop e from_date to_date fuel (e.nextOccurrence cur)
      if from_date.leB cur then e.mkInstance cur :: rest else rest

/-- `Event.get_recurring_instances(from_date, to_date)` (lines 415-479)
with both window arguments supplied: non-recurring or unset rule
returns the plain `to_dict`; a rule outside weekly/biweekly/monthly
also returns the plain `to_dict` (line 437); otherwise the loop runs
from the stored `start_date` with the 100-iteration safety limit. -/
def Event.getRecurringInstances (e : Event) (from_date to_date : DateTime) :
    List EventInstance :=
  if !e.is_recurring || e.recurrence_rule == "" then [e.passThrough]
  else if e.recurrence_rule == "weekly" || e.recurrence_rule == "biweekly"
       || e.recurrence_rule == "monthly" then
    recurLoop e from_date to_date 100 e.start_date
  else [e.passThrough]

/-!
The notification scheduler `check_and_send_event_notifications`
(src/app.py, lines 3085-3151).  The push transport
`send_all_push_notifications` (line 2485) always returns a result
dictionary: both `send_push_notification` and `send_fcm_notification`
wrap their bodies in a catch-all handler and report failures as
`sent = 0` with an error entry, so a transport failure surfaces as a
returned value, never as a raised exception.  The transport is modelled
as a function from the (title, body) pair to a `SendResult`; the tick
binds the result exactly as the source does and, like the source, never
inspects it. -/

/-- Shape of the value returned by `send_all_push_notifications`:
a delivery count and whether any per-platform error was reported. -/
structure SendResult where
  totalSent : Nat
  hasError : Bool
deriving DecidableEq, Repr

/-- The push transport collaborator for one tick. -/
def SendFn : Type := String → String → SendResult

/-- The timezone collaborator: UTC offset in seconds that `astimezone`
(or `datetime.now(eastern)`) applies at a given UTC instant. -/
def TzOffset : Type := DateTime → Int

/-- Candidate filter of the tick query (lines 3104-3108):
`is_active`, `notify`, and `start_date >= now_utc - timedelta(hours=1)`. -/
def isCandidate (now_utc : DateTime) (e : Event) : Bool :=
  e.is_active && e.notify && (now_utc.addSecs (-3600)).leB e.start_date

/-- Morning-trigger condition (lines 3117-3121): flag unsent, event
start rendered in Eastern falls on the same Eastern calendar date as
now, and the Eastern hour of now is at least 7. -/
def morningDue (tz : TzOffset) (now_utc : DateTime) (e : Event) : Bool :=
  let now_eastern := now_utc.addSecs (tz now_utc)
  let event_start_eastern := e.start_date.addSecs (tz e.start_date)
  !e.notified_morning && event_start_eastern.sameDate now_eastern
    && decide (7 ≤ now_eastern.hour)

/-- Hour-before condition (lines 3134-3137): flag unsent and
`0 < (start_date - now_utc).total_seconds() <= 3600`. -/
def hourDue (now_utc : DateTime) (e : Event) : Bool :=
  let time_until_start := e.start_date.toSecs - now_utc.toSecs
  !e.notified_hour_before && decide (0 < time_until_start)
    && decide (time_until_start ≤ 3600)

/-- `f" at {event.location}" if event.location else ""`. -/
def locationStr (e : Event) : String :=
  if e.location == "" then "" else " at " ++ e.location

/-- Body of the morning push (line 3127). -/
def morningBody (tz : TzOffset) (e : Event) : String :=
  let event_start_eastern := e.start_date.addSecs (tz e.start_date)
  "Join us today at " ++ event_start_eastern.fmtHour12 ++ locationStr e ++ "!"

/-- Body of the hour-before push (line 3142). -/
def hourBody (e : Event) : String :=
  "We\x27re setting up now" ++ locationStr e ++ ". See you in about an hour!"

/-- Outcome of processing one candidate event in the loop body: the
(possibly flag-updated) event, the strings appended to
`notifications_sent`, and the (title, body) calls made on the push
transport. -/
structure StepResult where
  event : Event
  sent : List String
  calls : List (String × String)
deriving DecidableEq, Repr

/-- Morning half of the loop body (lines 3117-3131): when due, invoke
the transport (result bound and ignored, as in the source) and set
`notified_morning`. -/
def morningStep (tz : TzOffset) (send : SendFn) (now_utc : DateTime)
    (e : Event) : StepResult :=
  if morningDue tz now_utc e then
    let title := "Today: " ++ e.title
    let body := morningBody tz e
    let result := send title body
    let _ := result
    { event := { e with notified_morning := true },
      sent := ["Morning: " ++ e.title], calls := [(title, body)] }
  else { event := e, sent := [], calls := [] }

/-- Hour-before half of the loop body (lines 3134-3146). -/
def hourStep (send : SendFn) (now_utc : DateTime) (e : Event) : StepResult :=
  if hourDue now_utc e then
    let title := "Starting Soon: " ++ e.title
    let body := hourBody e
    let result := send title body
    let _ := result
    { event := { e with notified_hour_before := true },
      sent := ["1hr before: " ++ e.title], calls := [(title, body)] }
  else { event := e, sent := [], calls := [] }

/-- Full loop body for one candidate event (lines 3112-3146): the two
trigger checks run in sequence on the same event object. -/
def stepEvent (tz : TzOffset) (send : SendFn) (now_utc : DateTime)
    (e : Event) : StepResult :=
  let r1 := morningStep tz send now_utc e
  let r2 := hourStep send now_utc r1.event
  { event := r2.event, sent := r1.sent ++ r2.sent, calls := r1.calls ++ r2.calls }

/-- Result of one tick: the `notifications_sent` return value, the
resulting event table (session state), the transport calls made, and
whether `db.session.commit()` ran (line 3148-3149: only when some
notification was sent). -/
structure TickResult where
  sent : List String
  events : List Event
  calls : List (String × String)
  committed : Bool
deriving DecidableEq, Repr

/-- Walk the event table: candidates go through the loop body, other
rows are untouched; sent strings and transport calls accumulate in
table order. -/
def tickLoop (tz : TzOffset) (send : SendFn) (now_utc : DateTime) :
    List Event → List Event × List String × List (String × String)
  | [] => ([], [], [])
  | e :: rest =>
    let (restEvents, restSent, restCalls) := tickLoop tz send now_utc rest
    if isCandidate now_utc e then
      let r := stepEvent tz send now_utc e
      (r.event :: restEvents, r.sent ++ restSent, r.calls ++ restCalls)
    else (e :: restEvents, restSent, restCalls)

/-- `check_and_send_event_notifications` over an event table at instant
`now_utc` (the two clock reads of the source, `utcnow` and
`now(eastern)`, are the same instant in UTC and Eastern rendering). -/
def tick (tz : TzOffset) (send : SendFn) (now_utc : DateTime)
    (events : List Event) : TickResult :=
  let (evs, sent, calls) := tickLoop tz send now_utc events
  { sent := sent, events := evs, calls := calls, committed := !sent.isEmpty }

/-!  Concrete fixtures used by the example conjuncts and witnesses.  -/

/-- The constant EDT offset (UTC-4), the America/New_York offset in
effect at every June 2025 instant used below. -/
def tzEDT : TzOffset := fun _ => -14400

/-- A transport whose sends all succeed. -/
def sendOK : SendFn := fun _ _ => { totalSent := 2, hasError := false }

/-- A transport that is unreachable or rejects every push: it reports
zero deliveries and an error, which is how the source surfaces
transport failure (it never raises). -/
def sendFail : SendFn := fun _ _ => { totalSent := 0, hasError := true }

/-- A non-recurring event starting 2025-06-10T18:00:00Z (the spec
example: an Eastern afternoon). -/
def evBase : Event :=
  { id := 1, title := "Market", location := "Barn",
    start_date := ⟨2025, 6, 10, 18, 0, 0⟩, end_date := none,
    is_recurring := false, recurrence_rule := "", recurrence_end_date := none,
    is_active := true, is_popup := true, notify := true,
    notified_morning := false, notified_hour_before := false }

/-- Weekly event whose stored start (2025-06-01) lies 10 days before
the window start used with it, with a two-hour stored duration. -/
def evWeekly : Event :=
  { evBase with is_recurring := true, recurrence_rule := "weekly",
                start_date := ⟨2025, 6, 1, 9, 0, 0⟩,
                end_date := some ⟨2025, 6, 1, 11, 0, 0⟩ }

/-- Weekly event with `recurrence_end_date` three days after its start. -/
def evRecEnd : Event :=
  { evWeekly with start_date := ⟨2025, 6, 11, 9, 0, 0⟩, end_date := none,
                  recurrence_end_date := some ⟨2025, 6, 14, 0, 0, 0⟩ }

/-- Monthly event starting Jan 31 of the non-leap year 2025. -/
def evMonthly : Event :=
  { evBase with is_recurring := true, recurrence_rule := "monthly",
                start_date := ⟨2025, 1, 31, 10, 0, 0⟩ }

/-- Monthly event starting Jan 31 of the leap year 2024. -/
def evMonthlyLeap : Event :=
  { evMonthly with start_date := ⟨2024, 1, 31, 10, 0, 0⟩ }

/-- Weekly event with no stored `end_date` (and no recurrence end). -/
def evNoEnd : Event :=
  { evWeekly with end_date := none }

/-!  Lemmas about the generation loop.  -/

/-- Every instance the loop emits was emitted in an iteration that had
already passed the three guards: at or after `from_date`, not beyond
`to_date`, not beyond the recurrence end when one is set. -/
theorem recurLoop_bounds (e : Event) (f t : DateTime) :
    ∀ (fuel : Nat) (cur : DateTime) (inst : EventInstance),
      inst ∈ recurLoop e f t fuel cur →
      f.leB inst.start_date = true ∧ t.ltB inst.start_date = false ∧
      ∀ red, e.recurrence_end_date = some red → red.ltB inst.start_date = false := by
  intro fuel
  induction fuel with
  | zero => intro cur inst h; simp [recurLoop] at h
  | succ n ih =>
    intro cur inst h
    rw [recurLoop] at h
    split at h
    · exact absurd h (List.not_mem_nil _)
    next hred =>
      split at h
      · exact absurd h (List.not_mem_nil _)
      next hto =>
        split at h
        next hfrom =>
          rcases List.mem_cons.mp h with hEq | hRest
          · subst hEq
            refine ⟨hfrom, by simpa using hto, ?_⟩
            intro red hr
            rw [hr] at hred
            simpa using hred
          · exact ih _ _ hRest
        · exact ih _ _ h

/-- The loop emits at most one instance per iteration. -/
theorem recurLoop_length (e : Event) (f t : DateTime) :
    ∀ (fuel : Nat) (cur : DateTime),
      (recurLoop e f t fuel cur).length ≤ fuel := by
  intro fuel
  induction fuel with
  | zero => intro cur; simp [recurLoop]
  | succ n ih =>
    intro cur
    rw [recurLoop]
    split
    · simp
    split
    · simp
    split
    · simpa using Nat.succ_le_succ (ih _)
    · exact Nat.le_succ_of_le (ih _)

/-- Every emitted instance is built by `mkInstance` at its own
occurrence date. -/
theorem recurLoop_shape (e : Event) (f t : DateTime) :
    ∀ (fuel : Nat) (cur : DateTime) (inst : EventInstance),
      inst ∈ recurLoop e f t fuel cur →
      inst = e.mkInstance inst.start_date := by
  intro fuel
  induction fuel with
  | zero => intro cur inst h; simp [recurLoop] at h
  | succ n ih =>
    intro cur inst h
    rw [recurLoop] at h
    split at h
    · exact absurd h (List.not_mem_nil _)
    split at h
    · exact absurd h (List.not_mem_nil _)
    split at h
    · rcases List.mem_cons.mp h with hEq | hRest
      · subst hEq; rfl
      · exact ih _ _ hRest
    · exact ih _ _ h

/-- A recognized rule on a recurring event reaches the generation loop
with 100 units of fuel, starting from the stored start date. -/
theorem getRecurringInstances_loop (e : Event) (f t : DateTime)
    (hrec : e.is_recurring = true)
    (hrule : e.recurrence_rule ∈ (["weekly", "biweekly", "monthly"] : List String)) :
    e.getRecurringInstances f t = recurLoop e f t 100 e.start_date := by
  simp only [List.mem_cons, List.not_mem_nil, or_false] at hrule
  rcases hrule with h | h | h <;> simp_all [Event.getRecurringInstances]

/-- Claim C5: for a recurring event with a recognized rule, every
emitted instance starts at or after `from_date`, never after `to_date`,
and never after `recurrence_end_date` when that is set; a weekly event
starting 10 days before the window emits nothing before the window but
does emit the first occurrence at or after it, and a recurrence end 3
days after the start yields exactly 1 instance in a 90-day window. -/
theorem claim_C5 :
    (∀ (e : Event) (f t : DateTime), e.is_recurring = true →
       e.recurrence_rule ∈ (["weekly", "biweekly", "monthly"] : List String) →
       ∀ inst ∈ e.getRecurringInstances f t,
         f.leB inst.start_date = true ∧ t.ltB inst.start_date = false ∧
         ∀ red, e.recurrence_end_date = some red → red.ltB inst.start_date = false) ∧
    (evWeekly.getRecurringInstances ⟨2025, 6, 11, 0, 0, 0⟩ ⟨2025, 7, 11, 0, 0, 0⟩).map
        EventInstance.start_date =
      [⟨2025, 6, 15, 9, 0, 0⟩, ⟨2025, 6, 22, 9, 0, 0⟩, ⟨2025, 6, 29, 9, 0, 0⟩,
       ⟨2025, 7, 6, 9, 0, 0⟩] ∧
    (evRecEnd.getRecurringInstances ⟨2025, 6, 11, 0, 0, 0⟩ ⟨2025, 9, 9, 0, 0, 0⟩).length = 1 := by
  refine ⟨?_, by decide, by decide⟩
  intro e f t hrec hrule inst hmem
  rw [getRecurringInstances_loop e f t hrec hrule] at hmem
  exact recurLoop_bounds e f t _ _ _ hmem

/-- Witness for C5 at the weekly spec example: the June 15 occurrence
is inside the window on both sides. -/
theorem claim_C5_witness :
    DateTime.leB ⟨2025, 6, 11, 0, 0, 0⟩
        (Event.mkInstance evWeekly ⟨2025, 6, 15, 9, 0, 0⟩).start_date = true ∧
    DateTime.ltB ⟨2025, 7, 11, 0, 0, 0⟩
        (Event.mkInstance evWeekly ⟨2025, 6, 15, 9, 0, 0⟩).start_date = false :=
  ⟨(claim_C5.1 evWeekly ⟨2025, 6, 11, 0, 0, 0⟩ ⟨2025, 7, 11, 0, 0, 0⟩ rfl (by decide)
      _ (by decide)).1,
   (claim_C5.1 evWeekly ⟨2025, 6, 11, 0, 0, 0⟩ ⟨2025, 7, 11, 0, 0, 0⟩ rfl (by decide)
      _ (by decide)).2.1⟩

/-- Claim C6: the monthly step advances by one calendar month, rolling
the year from December and clamping the day with
`min(day, monthrange)`; an event starting Jan 31 expands to Feb 28 in
the non-leap year 2025 and to Feb 29 in the leap year 2024. -/
theorem claim_C6 :
    (∀ d : DateTime,
       monthlyNext d =
         { d with
             year := if 12 ≤ d.month then d.year + 1 else d.year,
             month := if 12 ≤ d.month then 1 else d.month + 1,
             day := min d.day
               (monthLength (if 12 ≤ d.month then d.year + 1 else d.year)
                            (if 12 ≤ d.month then 1 else d.month + 1)) }) ∧
    (evMonthly.getRecurringInstances ⟨2025, 1, 1, 0, 0, 0⟩ ⟨2025, 5, 1, 0, 0, 0⟩).map
        EventInstance.start_date =
      [⟨2025, 1, 31, 10, 0, 0⟩, ⟨2025, 2, 28, 10, 0, 0⟩, ⟨2025, 3, 28, 10, 0, 0⟩,
       ⟨2025, 4, 28, 10, 0, 0⟩] ∧
    (evMonthlyLeap.getRecurringInstances ⟨2024, 1, 1, 0, 0, 0⟩ ⟨2024, 5, 1, 0, 0, 0⟩).map
        EventInstance.start_date =
      [⟨2024, 1, 31, 10, 0, 0⟩, ⟨2024, 2, 29, 10, 0, 0⟩, ⟨2024, 3, 29, 10, 0, 0⟩,
       ⟨2024, 4, 29, 10, 0, 0⟩] := by
  refine ⟨?_, by decide, by decide⟩
  intro d
  by_cases h : 12 ≤ d.month
  · have h' : 12 < d.month + 1 := by omega
    by_cases hd : d.day ≤ monthLength (d.year + 1) 1
    · simp [monthlyNext, h, if_pos h', hd, Nat.min_eq_left hd]
    · simp [monthlyNext, h, if_pos h', hd]
  · have h' : ¬ 12 < d.month + 1 := by omega
    by_cases hd : d.day ≤ monthLength d.year (d.month + 1)
    · simp [monthlyNext, h, if_neg h', hd, Nat.min_eq_left hd]
    · simp [monthlyNext, h, if_neg h', hd]

/-- Counterexample to claim C7 as stated: a weekly event with no stored
`end_date` does not get occurrence-start-plus-4-hours end dates; the
emitted instances carry `end_date = none` (line 457 emits None whenever
the event has no stored end date, so the computed 4-hour default
duration is never used). -/
theorem claim_C7_counterexample :
    ¬ (∀ inst ∈ evNoEnd.getRecurringInstances ⟨2025, 6, 1, 0, 0, 0⟩ ⟨2025, 6, 20, 0, 0, 0⟩,
        inst.end_date = some (inst.start_date.addSecs (4 * 3600))) := by decide

/-- Claim C7 (amended): every emitted instance of a recognized
recurring rule has `end_date` equal to its occurrence start plus the
stored duration when the event has a stored `end_date`, and `end_date`
absent (None) when it does not. -/
theorem claim_C7 :
    ∀ (e : Event) (f t : DateTime), e.is_recurring = true →
      e.recurrence_rule ∈ (["weekly", "biweekly", "monthly"] : List String) →
      ∀ inst ∈ e.getRecurringInstances f t,
        inst.end_date =
          match e.end_date with
          | some en => some (inst.start_date.addSecs (en.toSecs - e.start_date.toSecs))
          | none => none := by
  intro e f t hrec hrule inst hmem
  rw [getRecurringInstances_loop e f t hrec hrule] at hmem
  have h : inst.end_date = (e.mkInstance inst.start_date).end_date :=
    congrArg EventInstance.end_date (recurLoop_shape e f t _ _ _ hmem)
  rw [h]
  cases hen : e.end_date with
  | none => simp [Event.mkInstance, hen]
  | some en => simp [Event.mkInstance, Event.eventDuration, hen]

/-- Witness for C7 at the weekly spec example: the June 15 instance
carries the stored two-hour duration forward. -/
theorem claim_C7_witness :
    (Event.mkInstance evWeekly ⟨2025, 6, 15, 9, 0, 0⟩).end_date =
      match evWeekly.end_date with
      | some en =>
        some ((Event.mkInstance evWeekly ⟨2025, 6, 15, 9, 0, 0⟩).start_date.addSecs
          (en.toSecs - evWeekly.start_date.toSecs))
      | none => none :=
  claim_C7 evWeekly ⟨2025, 6, 11, 0, 0, 0⟩ ⟨2025, 7, 11, 0, 0, 0⟩ rfl (by decide)
    _ (by decide)

set_option maxRecDepth 40000 in
/-- Claim C8: expansion always returns at most 100 instances (the
expansion function is total, so it terminates on every input, and
overflowing the cap is not reported as an error); the weekly rule with
no recurrence end over a 10-year window hits the cap exactly. -/
theorem claim_C8 :
    (∀ (e : Event) (f t : DateTime), (e.getRecurringInstances f t).length ≤ 100) ∧
    (evWeekly.getRecurringInstances ⟨2025, 6, 1, 0, 0, 0⟩ ⟨2035, 6, 1, 0, 0, 0⟩).length
      = 100 := by
  refine ⟨?_, by decide⟩
  intro e f t
  unfold Event.getRecurringInstances
  split
  · simp
  split
  · exact recurLoop_length e f t 100 e.start_date
  · simp

/-- Claim C9: an event that is not recurring, or whose rule is unset or
unrecognized, expands to exactly one instance with its own stored dates
(and no synthetic instance id), for every window; the function is total,
so no error is raised. -/
theorem claim_C9 :
    ∀ (e : Event) (f t : DateTime),
      e.is_recurring = false ∨
        e.recurrence_rule ∉ (["weekly", "biweekly", "monthly"] : List String) →
      e.getRecurringInstances f t = [e.passThrough] := by
  intro e f t h
  unfold Event.getRecurringInstances
  rcases h with h | h
  · simp [h]
  · simp only [List.mem_cons, List.not_mem_nil, or_false, not_or] at h
    obtain ⟨h1, h2, h3⟩ := h
    by_cases hrec : e.is_recurring
    · by_cases hempty : e.recurrence_rule = ""
      · simp [hempty]
      · simp [hrec, hempty, h1, h2, h3]
    · simp [hrec]

/-- Witness for C9: the non-recurring base event passes through
unchanged regardless of the window. -/
theorem claim_C9_witness :
    evBase.getRecurringInstances ⟨2025, 6, 1, 0, 0, 0⟩ ⟨2025, 7, 1, 0, 0, 0⟩ =
      [evBase.passThrough] :=
  claim_C9 evBase ⟨2025, 6, 1, 0, 0, 0⟩ ⟨2025, 7, 1, 0, 0, 0⟩ (Or.inl rfl)

/-!  Lemmas about the scheduler loop body.  -/

/-- The hour-before condition does not read the morning flag. -/
theorem hourDue_morning_flag (now : DateTime) (e : Event) (b : Bool) :
    hourDue now { e with notified_morning := b } = hourDue now e := rfl

/-- The morning condition does not read the hour-before flag. -/
theorem morningDue_hour_flag (tz : TzOffset) (now : DateTime) (e : Event) (b : Bool) :
    morningDue tz now { e with notified_hour_before := b } = morningDue tz now e := rfl

/-- A set morning flag blocks the morning trigger. -/
theorem morningDue_false_of_flag (tz : TzOffset) (now : DateTime) (e : Event)
    (h : e.notified_morning = true) : morningDue tz now e = false := by
  simp [morningDue, h]

/-- A set hour-before flag blocks the hour-before trigger. -/
theorem hourDue_false_of_flag (now : DateTime) (e : Event)
    (h : e.notified_hour_before = true) : hourDue now e = false := by
  simp [hourDue, h]

/-- The hour-before push body does not read the morning flag. -/
theorem hourBody_morning_flag (e : Event) (b : Bool) :
    hourBody { e with notified_morning := b } = hourBody e := rfl

/-- Closed form of the loop body over the four firing combinations;
the result does not mention the transport, whose return value the
source discards. -/
theorem stepEvent_cases (tz : TzOffset) (send : SendFn) (now : DateTime) (e : Event) :
    stepEvent tz send now e =
      if morningDue tz now e then
        if hourDue now e then
          { event := { e with notified_morning := true, notified_hour_before := true },
            sent := ["Morning: " ++ e.title, "1hr before: " ++ e.title],
            calls := [("Today: " ++ e.title, morningBody tz e),
                      ("Starting Soon: " ++ e.title, hourBody e)] }
        else
          { event := { e with notified_morning := true },
            sent := ["Morning: " ++ e.title],
            calls := [("Today: " ++ e.title, morningBody tz e)] }
      else
        if hourDue now e then
          { event := { e with notified_hour_before := true },
            sent := ["1hr before: " ++ e.title],
            calls := [("Starting Soon: " ++ e.title, hourBody e)] }
        else { event := e, sent := [], calls := [] } := by
  by_cases hm : morningDue tz now e <;> by_cases hh : hourDue now e <;>
    simp [stepEvent, morningStep, hourStep, hourDue_morning_flag, hourBody_morning_flag,
      hm, hh]

/-- Processing a candidate twice at the same instant: the second pass
changes nothing and emits nothing. -/
theorem stepEvent_idem (tz : TzOffset) (send : SendFn) (now : DateTime) (e : Event) :
    stepEvent tz send now (stepEvent tz send now e).event =
      { event := (stepEvent tz send now e).event, sent := [], calls := [] } := by
  by_cases hm : morningDue tz now e <;> by_cases hh : hourDue now e <;>
    simp [stepEvent_cases, hm, hh, morningDue_false_of_flag, hourDue_false_of_flag,
      morningDue_hour_flag, hourDue_morning_flag]

/-- The loop body never changes the columns the candidate query reads. -/
theorem stepEvent_candidate (tz : TzOffset) (send : SendFn) (now : DateTime) (e : Event) :
    isCandidate now (stepEvent tz send now e).event = isCandidate now e := by
  by_cases hm : morningDue tz now e <;> by_cases hh : hourDue now e <;>
    simp [stepEvent_cases, hm, hh, isCandidate]

/-- Unfolding of the table walk over a cons cell. -/
theorem tickLoop_cons (tz : TzOffset) (send : SendFn) (now : DateTime)
    (e : Event) (rest : List Event) :
    tickLoop tz send now (e :: rest) =
      if isCandidate now e then
        ((stepEvent tz send now e).event :: (tickLoop tz send now rest).1,
         (stepEvent tz send now e).sent ++ (tickLoop tz send now rest).2.1,
         (stepEvent tz send now e).calls ++ (tickLoop tz send now rest).2.2)
      else
        (e :: (tickLoop tz send now rest).1,
         (tickLoop tz send now rest).2.1, (tickLoop tz send now rest).2.2) := by
  rcases h : tickLoop tz send now rest with ⟨R, S, C⟩
  simp [tickLoop, h]

/-- Walking the table produced by a walk at the same instant touches
nothing and emits nothing. -/
theorem tickLoop_idem (tz : TzOffset) (send : SendFn) (now : DateTime) :
    ∀ evs : List Event,
      tickLoop tz send now (tickLoop tz send now evs).1 =
        ((tickLoop tz send now evs).1, [], []) := by
  intro evs
  induction evs with
  | nil => simp [tickLoop]
  | cons e rest ih =>
    rw [tickLoop_cons]
    by_cases hc : isCandidate now e
    · simp only [hc, if_true]
      rw [tickLoop_cons]
      simp [stepEvent_candidate, hc, stepEvent_idem, ih]
    · simp only [hc, if_false, Bool.false_eq_true]
      rw [tickLoop_cons]
      simp [hc, ih]

/-- A tick over a table at which no candidate is due is a full no-op. -/
theorem tickLoop_frame (tz : TzOffset) (send : SendFn) (now : DateTime) :
    ∀ evs : List Event,
      (∀ e ∈ evs, isCandidate now e = true →
        morningDue tz now e = false ∧ hourDue now e = false) →
      tickLoop tz send now evs = (evs, [], []) := by
  intro evs
  induction evs with
  | nil => intro _; simp [tickLoop]
  | cons e rest ih =>
    intro h
    rw [tickLoop_cons, ih (fun x hx hc => h x (List.mem_cons_of_mem _ hx) hc)]
    by_cases hc : isCandidate now e
    · obtain ⟨hm, hh⟩ := h e (List.mem_cons_self _ _) hc
      simp [hc, stepEvent_cases, hm, hh]
    · simp [hc]

/-- Claim C1: running the tick twice at the same instant with no
intervening state change sends each of the two per-event pushes at most
once in total: the second tick makes no transport call, returns an
empty summary, leaves every row unchanged, and skips the commit,
because every trigger that fired in the first tick left its flag set. -/
theorem claim_C1 (tz : TzOffset) (send : SendFn) (now : DateTime) (events : List Event) :
    tick tz send now (tick tz send now events).events =
      { sent := [], events := (tick tz send now events).events,
        calls := [], committed := false } := by
  rcases h : tickLoop tz send now events with ⟨R, S, C⟩
  have h2 := tickLoop_idem tz send now events
  rw [h] at h2
  simp [tick, h, h2]

/-- Counterexample to claim C2 as stated: with a transport that fails
every push (zero deliveries, error reported) the tick still sets the
flag of the trigger that was due, so the next tick will not retry. -/
theorem claim_C2_counterexample :
    sendFail ("Starting Soon: " ++ evBase.title) (hourBody evBase)
        = { totalSent := 0, hasError := true } ∧
    (tick tzEDT sendFail ⟨2025, 6, 10, 17, 15, 0⟩ [evBase]).events.map
        Event.notified_hour_before = [true] :=
  ⟨rfl, by decide⟩

/-- Claim C2 (amended): a failed send never aborts the tick and never
prevents evaluation of the remaining candidate events, because the
transport returns a result rather than raising and the tick ignores
that result entirely: the whole tick outcome is independent of the
transport, and in particular the flag of a due trigger is set even when
every push fails, so the next tick does not retry it. -/
theorem claim_C2 :
    ∀ (tz : TzOffset) (s1 s2 : SendFn) (now : DateTime) (events : List Event),
      tick tz s1 now events = tick tz s2 now events ∧
      (∀ e : Event, morningDue tz now e = true →
        (stepEvent tz s1 now e).event.notified_morning = true) ∧
      (∀ e : Event, hourDue now e = true →
        (stepEvent tz s1 now e).event.notified_hour_before = true) := by
  intro tz s1 s2 now events
  refine ⟨?_, ?_, ?_⟩
  · have hstep : ∀ e : Event, stepEvent tz s1 now e = stepEvent tz s2 now e := by
      intro e; rw [stepEvent_cases, stepEvent_cases]
    have hloop : tickLoop tz s1 now events = tickLoop tz s2 now events := by
      induction events with
      | nil => simp [tickLoop]
      | cons e rest ih => rw [tickLoop_cons, tickLoop_cons, ih, hstep]
    simp [tick, hloop]
  · intro e hm
    by_cases hh : hourDue now e <;> simp [stepEvent_cases, hm, hh]
  · intro e hh
    by_cases hm : morningDue tz now e <;> simp [stepEvent_cases, hm, hh]

/-- Witness for C2: an event due for the hour-before push processed
with the all-failing transport still ends with its flag set. -/
theorem claim_C2_witness :
    (stepEvent tzEDT sendFail ⟨2025, 6, 10, 17, 15, 0⟩ evBase).event.notified_hour_before
      = true :=
  (claim_C2 tzEDT sendFail sendOK ⟨2025, 6, 10, 17, 15, 0⟩ []).2.2 evBase (by decide)

/-- Claim C3: for a candidate event with an unsent morning flag, the
morning trigger fires exactly when the Eastern rendering of the event
start shares its calendar date with the Eastern rendering of now and
the Eastern hour of now is at least 7; on firing the transport is
called with title Today-colon-title and the flag is set. -/
theorem claim_C3 (tz : TzOffset) (send : SendFn) (now : DateTime) (e : Event)
    (hc : isCandidate now e = true) (hm : e.notified_morning = false) :
    ((stepEvent tz send now e).event.notified_morning = true ↔
       ((e.start_date.addSecs (tz e.start_date)).sameDate (now.addSecs (tz now)) = true ∧
        7 ≤ (now.addSecs (tz now)).hour)) ∧
    ((stepEvent tz send now e).event.notified_morning = true →
       ("Today: " ++ e.title, morningBody tz e) ∈ (stepEvent tz send now e).calls) := by
  have hdue : morningDue tz now e = true ↔
      ((e.start_date.addSecs (tz e.start_date)).sameDate (now.addSecs (tz now)) = true ∧
        7 ≤ (now.addSecs (tz now)).hour) := by
    simp [morningDue, hm]
  have hflag : (stepEvent tz send now e).event.notified_morning = morningDue tz now e := by
    by_cases hmd : morningDue tz now e <;> by_cases hh : hourDue now e <;>
      simp [stepEvent_cases, hmd, hh, hm]
  refine ⟨hflag ▸ hdue, ?_⟩
  intro hfire
  rw [hflag] at hfire
  by_cases hh : hourDue now e <;> simp [stepEvent_cases, hfire, hh]

/-- Witness for C3 at the spec example: start 2025-06-10T18:00:00Z,
now 2025-06-10T11:30:00Z, which is 07:30 EDT, fires. -/
theorem claim_C3_witness :
    (stepEvent tzEDT sendOK ⟨2025, 6, 10, 11, 30, 0⟩ evBase).event.notified_morning
      = true :=
  (claim_C3 tzEDT sendOK ⟨2025, 6, 10, 11, 30, 0⟩ evBase (by decide) rfl).1.mpr (by decide)

/-- Claim C4: for a candidate event with an unsent hour-before flag,
the trigger fires exactly when the event starts strictly in the future
and at most 3600 seconds away; on firing the transport is called with
title Starting-Soon-colon-title and the flag is set.  At 45 minutes out
the condition holds; at 75 minutes out or 5 minutes past it does not. -/
theorem claim_C4 (tz : TzOffset) (send : SendFn) (now : DateTime) (e : Event)
    (hc : isCandidate now e = true) (hhb : e.notified_hour_before = false) :
    ((stepEvent tz send now e).event.notified_hour_before = true ↔
       (0 < e.start_date.toSecs - now.toSecs ∧ e.start_date.toSecs - now.toSecs ≤ 3600)) ∧
    ((stepEvent tz send now e).event.notified_hour_before = true →
       ("Starting Soon: " ++ e.title, hourBody e) ∈ (stepEvent tz send now e).calls) := by
  have hdue : hourDue now e = true ↔
      (0 < e.start_date.toSecs - now.toSecs ∧ e.start_date.toSecs - now.toSecs ≤ 3600) := by
    simp [hourDue, hhb]
  have hflag : (stepEvent tz send now e).event.notified_hour_before = hourDue now e := by
    by_cases hhd : hourDue now e <;> by_cases hmd : morningDue tz now e <;>
      simp [stepEvent_cases, hmd, hhd, hhb]
  refine ⟨hflag ▸ hdue, ?_⟩
  intro hfire
  rw [hflag] at hfire
  by_cases hmd : morningDue tz now e <;> simp [stepEvent_cases, hmd, hfire]

/-- Witness for C4 at the spec example: an event starting in exactly 45
minutes fires the hour-before trigger. -/
theorem claim_C4_witness :
    (stepEvent tzEDT sendOK ⟨2025, 6, 10, 17, 15, 0⟩ evBase).event.notified_hour_before
      = true :=
  (claim_C4 tzEDT sendOK ⟨2025, 6, 10, 17, 15, 0⟩ evBase (by decide) rfl).1.mpr (by decide)

/-- Claim C10: when no trigger condition holds for any candidate, the
tick returns the empty list, mutates no event field, makes no transport
call, and skips the commit entirely. -/
theorem claim_C10 (tz : TzOffset) (send : SendFn) (now : DateTime) (events : List Event)
    (h : ∀ e ∈ events, isCandidate now e = true →
      morningDue tz now e = false ∧ hourDue now e = false) :
    tick tz send now events =
      { sent := [], events := events, calls := [], committed := false } := by
  simp [tick, tickLoop_frame tz send now events h]

/-- Witness for C10: a candidate event two days ahead triggers nothing
and the tick is a no-op. -/
theorem claim_C10_witness :
    tick tzEDT sendOK ⟨2025, 6, 10, 11, 30, 0⟩
        [{ evBase with start_date := ⟨2025, 6, 12, 18, 0, 0⟩ }] =
      { sent := [],
        events := [{ evBase with start_date := ⟨2025, 6, 12, 18, 0, 0⟩ }],
        calls := [], committed := false } :=
  claim_C10 tzEDT sendOK ⟨2025, 6, 10, 11, 30, 0⟩
    [{ evBase with start_date := ⟨2025, 6, 12, 18, 0, 0⟩ }] (by decide)
